import Mathlib

/-!
Verification of the cross-entity search and filtering engine
(globalSearch, filterPolicies, filterClaims, filterDocuments).

The record store is modeled as three lists (policies, claims, documents);
a Prisma findMany with orderBy updatedAt desc / skip / take is modeled as
filter, stable sort by key descending, drop, take; count as the length of
the filter.  Timestamps are Int (milliseconds), nullable text fields are
String with "" standing for null (search terms are never empty, so
substring matching is unaffected).  JS Array.prototype.sort is stable, and
is modeled by List.insertionSort, which is stable as well (all stable
sorts under one comparator agree, so the choice of algorithm is
immaterial).
-/

namespace ClaimGuardian

/-- Lower-cased character list of a string (model of JS toLowerCase). -/
def lowerChars (s : String) : List Char := s.data.map Char.toLower

/-- Upper-cased character list of a string (model of JS toUpperCase). -/
def upperChars (s : String) : List Char := s.data.map Char.toUpper

/-- Case-insensitive substring test; models the Prisma condition
`field: \x7b contains: term, mode: insensitive \x7d`. -/
def containsCI (hay needle : String) : Bool :=
  decide (lowerChars needle <:+: lowerChars hay)

/-- Substring test of an upper-cased haystack against an upper-case
literal; models JS `term.toUpperCase().includes(lit)`. -/
def containsUpper (hay : List Char) (needle : String) : Bool :=
  decide (needle.data <:+: hay)

/-- Splitter of `query.trim().split(/\s+/).filter(Boolean)`: collects the
maximal non-empty runs of non-whitespace characters, in order.  The
accumulator holds the current run, reversed. -/
def splitWsAux : List Char → List Char → List String
  | [], acc => if acc.isEmpty then [] else [String.mk acc.reverse]
  | c :: cs, acc =>
    if c.isWhitespace then
      (if acc.isEmpty then [] else [String.mk acc.reverse]) ++ splitWsAux cs []
    else
      splitWsAux cs (c :: acc)

/-- Model of `query.trim().split(/\s+/).filter(Boolean)`. -/
def tokenize (query : String) : List String :=
  splitWsAux query.data []

/-- Model of createSearchCondition: a single term gives one contains
condition, several terms give an OR of contains conditions (semantically:
some term occurs in the field). -/
def createSearchCondition (fieldValue : String) (terms : List String) : Bool :=
  match terms with
  | [t] => containsCI fieldValue t
  | ts => ts.any (fun t => containsCI fieldValue t)

/-- Keywords of the regex /approved|rejected|paid|draft|submitted|review|closed/i. -/
def claimStatusKeywords : List String :=
  ["approved", "rejected", "paid", "draft", "submitted", "review", "closed"]

/-- Model of `term.match(/approved|...|closed/i)`: the term contains one of
the keywords, case-insensitively. -/
def isClaimStatusKeyword (term : String) : Bool :=
  claimStatusKeywords.any (fun k => containsCI term k)

/-- Model of the claim-status mapping: uppercase the term, then test the
branches in source order. -/
def inferClaimStatus (term : String) : String :=
  let u := upperChars term
  if containsUpper u "APPROVED" then "APPROVED"
  else if containsUpper u "REJECTED" then "REJECTED"
  else if containsUpper u "PAID" then "PAID"
  else if containsUpper u "DRAFT" then "DRAFT"
  else if containsUpper u "SUBMITTED" then "SUBMITTED"
  else if containsUpper u "REVIEW" then "UNDER_REVIEW"
  else if containsUpper u "CLOSED" then "CLOSED"
  else "DRAFT"

/-- Keywords of the regex /policy|claim|identity|proof|estimate|invoice|receipt|photo/i. -/
def documentTypeKeywords : List String :=
  ["policy", "claim", "identity", "proof", "estimate", "invoice", "receipt", "photo"]

/-- Model of `term.match(/policy|...|photo/i)`. -/
def isDocumentTypeKeyword (term : String) : Bool :=
  documentTypeKeywords.any (fun k => containsCI term k)

/-- Model of the document-type mapping: uppercase the term, then test the
branches in source order. -/
def inferDocumentType (term : String) : String :=
  let u := upperChars term
  if containsUpper u "POLICY" then "POLICY"
  else if containsUpper u "CLAIM" then "CLAIM"
  else if containsUpper u "IDENTITY" then "IDENTITY"
  else if containsUpper u "PROOF" then "PROOF_OF_LOSS"
  else if containsUpper u "ESTIMATE" then "ESTIMATE"
  else if containsUpper u "INVOICE" then "INVOICE"
  else if containsUpper u "RECEIPT" then "RECEIPT"
  else if containsUpper u "PHOTO" then "PHOTO"
  else "OTHER"

/-- Insurance policy record (fields used by the engine). -/
structure Policy where
  id : String
  userId : String
  policyNumber : String
  provider : String
  description : String
  insuranceType : String
  isActive : Bool
  coverageAmount : Int
  startDate : Int
  endDate : Int
  updatedAt : Int
deriving DecidableEq, Repr

/-- Claim record (fields used by the engine). -/
structure Claim where
  id : String
  userId : String
  policyId : String
  claimNumber : String
  description : String
  status : String
  incidentDate : Int
  damageAmount : Int
  updatedAt : Int
deriving DecidableEq, Repr

/-- Document record (fields used by the engine). -/
structure Document where
  id : String
  userId : String
  policyId : String
  claimId : String
  fileName : String
  description : String
  documentType : String
  fileSize : Nat
  isAnalyzed : Bool
  uploadDate : Int
  updatedAt : Int
deriving DecidableEq, Repr

/-- The record store: the three independently queryable collections. -/
structure Store where
  policies : List Policy
  claims : List Claim
  documents : List Document
deriving DecidableEq, Repr

/-- Descending order on an Int sort key. -/
def keyDesc {α : Type} (key : α → Int) (a b : α) : Prop := key b ≤ key a

instance {α : Type} (key : α → Int) : DecidableRel (keyDesc key) :=
  fun a b => Int.decLe (key b) (key a)

instance {α : Type} (key : α → Int) : IsTotal α (keyDesc key) :=
  ⟨fun a b => le_total (key b) (key a)⟩

instance {α : Type} (key : α → Int) : IsTrans α (keyDesc key) :=
  ⟨fun _ _ _ h1 h2 => le_trans h2 h1⟩

/-- Model of a Prisma findMany with a where predicate, orderBy key
descending, skip and take.  Ordering among rows with equal keys is modeled
as stable with respect to store order; List.insertionSort is a stable
sort, so it realizes exactly that. -/
def findManyBy {α : Type} (rows : List α) (w : α → Bool) (key : α → Int)
    (skip take : Nat) : List α :=
  ((((rows.filter w).insertionSort (keyDesc key)).drop skip).take take)

/-- Model of a Prisma count with a where predicate. -/
def countBy {α : Type} (rows : List α) (w : α → Bool) : Nat :=
  (rows.filter w).length

/-- Where predicate of the policy search query: user scope AND an OR over
the three text fields. -/
def policySearchWhere (userId : String) (terms : List String) (p : Policy) : Bool :=
  p.userId == userId &&
    (createSearchCondition p.policyNumber terms ||
     createSearchCondition p.provider terms ||
     createSearchCondition p.description terms)

/-- The conditionally-spread status disjunct of the claim search query:
present only when some term matches a status keyword, and then a
membership test of the status in the inferred list. -/
def claimStatusCondition (terms : List String) (c : Claim) : Bool :=
  if terms.any isClaimStatusKeyword then
    ((terms.filter isClaimStatusKeyword).map inferClaimStatus).contains c.status
  else false

/-- Where predicate of the claim search query. -/
def claimSearchWhere (userId : String) (terms : List String) (c : Claim) : Bool :=
  c.userId == userId &&
    (createSearchCondition c.claimNumber terms ||
     createSearchCondition c.description terms ||
     claimStatusCondition terms c)

/-- The conditionally-spread documentType disjunct of the document search
query. -/
def documentTypeCondition (terms : List String) (d : Document) : Bool :=
  if terms.any isDocumentTypeKeyword then
    ((terms.filter isDocumentTypeKeyword).map inferDocumentType).contains d.documentType
  else false

/-- Where predicate of the document search query. -/
def documentSearchWhere (userId : String) (terms : List String) (d : Document) : Bool :=
  d.userId == userId &&
    (createSearchCondition d.fileName terms ||
     createSearchCondition d.description terms ||
     documentTypeCondition terms d)

/-- Unit index floor(log bytes / log 1024) of formatBytes, written with
explicit thresholds for the five units of the source array. -/
def byteUnitIndex (bytes : Nat) : Nat :=
  if bytes < 1024 then 0
  else if bytes < 1024 ^ 2 then 1
  else if bytes < 1024 ^ 3 then 2
  else if bytes < 1024 ^ 4 then 3
  else 4

/-- Model of formatBytes.  The source computes the unit index with
floating point (Math.log / Math.pow) and renders with toFixed; here the
index and the quotient are computed with exact Nat arithmetic.  No
verified property inspects this cosmetic string. -/
def formatBytes (bytes : Nat) : String :=
  if bytes == 0 then "0 Bytes"
  else
    let i := byteUnitIndex bytes
    toString (bytes / 1024 ^ i) ++ " " ++ (["Bytes", "KB", "MB", "GB", "TB"].getD i "TB")

/-- The three searchable record kinds. -/
inductive SearchResultType where
  | policy
  | claim
  | document
deriving DecidableEq, Repr

/-- A search result view object. -/
structure SearchResult where
  id : String
  type : SearchResultType
  title : String
  description : String
  date : Int
  link : String
deriving DecidableEq, Repr

/-- Options of globalSearch (defaults as in the source). -/
structure SearchOptions where
  query : String
  userId : String
  types : List SearchResultType := [SearchResultType.policy, SearchResultType.claim, SearchResultType.document]
  limit : Nat := 20
  page : Nat := 1
deriving Repr

/-- Return value of globalSearch. -/
structure SearchResponse where
  results : List SearchResult
  total : Nat
deriving DecidableEq, Repr

/-- Mapping of a fetched policy to a SearchResult (`description || fallback`
reads the fallback exactly when the stored description is empty/null). -/
def policyToResult (p : Policy) : SearchResult :=
  { id := p.id
    type := SearchResultType.policy
    title := "Policy #" ++ p.policyNumber
    description := if p.description != "" then p.description else p.provider ++ " - " ++ p.insuranceType
    date := p.updatedAt
    link := "/policies/" ++ p.id }

/-- Mapping of a fetched claim to a SearchResult. -/
def claimToResult (c : Claim) : SearchResult :=
  { id := c.id
    type := SearchResultType.claim
    title := "Claim #" ++ c.claimNumber
    description := String.mk (c.description.data.take 100) ++ (if c.description.data.length > 100 then "..." else "") ++ " - " ++ c.status
    date := c.updatedAt
    link := "/claims/" ++ c.id }

/-- Mapping of a fetched document to a SearchResult. -/
def documentToResult (d : Document) : SearchResult :=
  { id := d.id
    type := SearchResultType.document
    title := d.fileName
    description := if d.description != "" then d.description else d.documentType ++ " - " ++ formatBytes d.fileSize
    date := d.updatedAt
    link := "/documents/" ++ d.id }

/-- Order of the final `results.sort((a, b) => b.date.getTime() - a.date.getTime())`:
date descending; the JS sort is stable and is modeled by the stable
List.insertionSort. -/
def byDateDesc : SearchResult → SearchResult → Prop := keyDesc (fun r => r.date)

instance : DecidableRel byDateDesc := fun a b => Int.decLe b.date a.date

instance : IsTotal SearchResult byDateDesc := ⟨fun a b => le_total b.date a.date⟩

instance : IsTrans SearchResult byDateDesc := ⟨fun _ _ _ h1 h2 => le_trans h2 h1⟩

/-- The policy branch of globalSearch: fetch and map candidates. -/
def policyCandidates (s : Store) (userId : String) (terms : List String)
    (skip take : Nat) : List SearchResult :=
  (findManyBy s.policies (policySearchWhere userId terms) (fun p => p.updatedAt) skip take).map policyToResult

/-- The claim branch of globalSearch: fetch and map candidates. -/
def claimCandidates (s : Store) (userId : String) (terms : List String)
    (skip take : Nat) : List SearchResult :=
  (findManyBy s.claims (claimSearchWhere userId terms) (fun c => c.updatedAt) skip take).map claimToResult

/-- The document branch of globalSearch: fetch and map candidates. -/
def documentCandidates (s : Store) (userId : String) (terms : List String)
    (skip take : Nat) : List SearchResult :=
  (findManyBy s.documents (documentSearchWhere userId terms) (fun d => d.updatedAt) skip take).map documentToResult

/-- Model of globalSearch: tokenize; short-circuit on no terms; per
requested kind fetch candidates (store skip only when exactly one kind is
requested) and a count; concatenate in policy, claim, document order; sort
by date descending (stable); slice at [skip, skip+limit) only when more
than one kind is requested; total is the sum of the per-kind counts. -/
def globalSearch (s : Store) (o : SearchOptions) : SearchResponse :=
  let skip := (o.page - 1) * o.limit
  let searchTerms := tokenize o.query
  if searchTerms.isEmpty then { results := [], total := 0 }
  else
    let kindSkip := if o.types.length == 1 then skip else 0
    let policyResults :=
      if o.types.contains SearchResultType.policy then
        policyCandidates s o.userId searchTerms kindSkip o.limit
      else []
    let policyTotal :=
      if o.types.contains SearchResultType.policy then
        countBy s.policies (policySearchWhere o.userId searchTerms)
      else 0
    let claimResults :=
      if o.types.contains SearchResultType.claim then
        claimCandidates s o.userId searchTerms kindSkip o.limit
      else []
    let claimTotal :=
      if o.types.contains SearchResultType.claim then
        countBy s.claims (claimSearchWhere o.userId searchTerms)
      else 0
    let documentResults :=
      if o.types.contains SearchResultType.document then
        documentCandidates s o.userId searchTerms kindSkip o.limit
      else []
    let documentTotal :=
      if o.types.contains SearchResultType.document then
        countBy s.documents (documentSearchWhere o.userId searchTerms)
      else 0
    let results := policyResults ++ claimResults ++ documentResults
    let sorted := results.insertionSort byDateDesc
    let final := if o.types.length > 1 then (sorted.drop skip).take o.limit else sorted
    { results := final, total := policyTotal + claimTotal + documentTotal }

/-- The merge pool of a multi-kind search: for each requested kind up to
limit candidates fetched with store skip 0, concatenated in policy, claim,
document order. -/
def mergeCandidates (s : Store) (o : SearchOptions) : List SearchResult :=
  (if o.types.contains SearchResultType.policy then
    policyCandidates s o.userId (tokenize o.query) 0 o.limit else []) ++
  (if o.types.contains SearchResultType.claim then
    claimCandidates s o.userId (tokenize o.query) 0 o.limit else []) ++
  (if o.types.contains SearchResultType.document then
    documentCandidates s o.userId (tokenize o.query) 0 o.limit else [])

/-- One store call issued by globalSearch. -/
inductive StoreCall where
  | policyFindMany
  | policyCount
  | claimFindMany
  | claimCount
  | documentFindMany
  | documentCount
deriving DecidableEq, Repr

/-- Concurrency structure of globalSearch as written: each inner list is
one batch of store calls started together and awaited by one Promise.all;
batches are awaited in program order, so a later batch is not started
until the previous batch has completed.  The source awaits the policy
pair, then the claim pair, then the document pair. -/
def globalSearchSchedule (o : SearchOptions) : List (List StoreCall) :=
  let searchTerms := tokenize o.query
  if searchTerms.isEmpty then []
  else
    (if o.types.contains SearchResultType.policy then [[StoreCall.policyFindMany, StoreCall.policyCount]] else []) ++
    (if o.types.contains SearchResultType.claim then [[StoreCall.claimFindMany, StoreCall.claimCount]] else []) ++
    (if o.types.contains SearchResultType.document then [[StoreCall.documentFindMany, StoreCall.documentCount]] else [])

/-- List-membership filter field: the source adds the `in` condition only
when the field is present AND non-empty (`filters.x && filters.x.length > 0`). -/
def inListFilter (fieldValue : String) : Option (List String) → Bool
  | some l => if l.length > 0 then l.contains fieldValue else true
  | none => true

/-- Filters accepted by filterPolicies. -/
structure PolicyFilters where
  insuranceType : Option (List String) := none
  provider : Option (List String) := none
  isActive : Option Bool := none
  minAmount : Option Int := none
  maxAmount : Option Int := none
  startAfter : Option Int := none
  endBefore : Option Int := none
deriving Repr

/-- Where predicate built by filterPolicies: user scope plus one conjunct
per supplied filter field (boolean via `!== undefined`, ranges via
gte/lte, lists via `in` when non-empty). -/
def policyFilterWhere (userId : String) (f : PolicyFilters) (p : Policy) : Bool :=
  p.userId == userId &&
  inListFilter p.insuranceType f.insuranceType &&
  inListFilter p.provider f.provider &&
  (match f.isActive with | some b => p.isActive == b | none => true) &&
  (match f.minAmount with | some m => decide (m ≤ p.coverageAmount) | none => true) &&
  (match f.maxAmount with | some m => decide (p.coverageAmount ≤ m) | none => true) &&
  (match f.startAfter with | some d => decide (d ≤ p.startDate) | none => true) &&
  (match f.endBefore with | some d => decide (p.endDate ≤ d) | none => true)

/-- Return value of filterPolicies. -/
structure PolicyFilterResponse where
  policies : List Policy
  total : Nat
deriving DecidableEq, Repr

/-- Model of filterPolicies: one findMany (orderBy updatedAt desc, exact
skip/take) and one count, both under the same where predicate. -/
def filterPolicies (s : Store) (userId : String) (f : PolicyFilters)
    (page pageSize : Nat) : PolicyFilterResponse :=
  let w := policyFilterWhere userId f
  let skip := (page - 1) * pageSize
  { policies := findManyBy s.policies w (fun p => p.updatedAt) skip pageSize
    total := countBy s.policies w }

/-- Filters accepted by filterClaims. -/
structure ClaimFilters where
  status : Option (List String) := none
  policyId : Option String := none
  incidentDateFrom : Option Int := none
  incidentDateTo : Option Int := none
  minAmount : Option Int := none
  maxAmount : Option Int := none
deriving Repr

/-- Where predicate built by filterClaims.  The policyId guard is JS
truthiness, so a supplied empty string imposes no constraint; the date
guards test truthiness of a Date object, which is always truthy when
present. -/
def claimFilterWhere (userId : String) (f : ClaimFilters) (c : Claim) : Bool :=
  c.userId == userId &&
  inListFilter c.status f.status &&
  (match f.policyId with | some pid => if pid != "" then c.policyId == pid else true | none => true) &&
  (match f.incidentDateFrom with | some d => decide (d ≤ c.incidentDate) | none => true) &&
  (match f.incidentDateTo with | some d => decide (c.incidentDate ≤ d) | none => true) &&
  (match f.minAmount with | some m => decide (m ≤ c.damageAmount) | none => true) &&
  (match f.maxAmount with | some m => decide (c.damageAmount ≤ m) | none => true)

/-- Return value of filterClaims. -/
structure ClaimFilterResponse where
  claims : List Claim
  total : Nat
deriving DecidableEq, Repr

/-- Model of filterClaims. -/
def filterClaims (s : Store) (userId : String) (f : ClaimFilters)
    (page pageSize : Nat) : ClaimFilterResponse :=
  let w := claimFilterWhere userId f
  let skip := (page - 1) * pageSize
  { claims := findManyBy s.claims w (fun c => c.updatedAt) skip pageSize
    total := countBy s.claims w }

/-- Filters accepted by filterDocuments. -/
structure DocumentFilters where
  documentType : Option (List String) := none
  policyId : Option String := none
  claimId : Option String := none
  uploadDateFrom : Option Int := none
  uploadDateTo : Option Int := none
  isAnalyzed : Option Bool := none
deriving Repr

/-- Where predicate built by filterDocuments (guards as in filterClaims). -/
def documentFilterWhere (userId : String) (f : DocumentFilters) (d : Document) : Bool :=
  d.userId == userId &&
  inListFilter d.documentType f.documentType &&
  (match f.policyId with | some pid => if pid != "" then d.policyId == pid else true | none => true) &&
  (match f.claimId with | some cid => if cid != "" then d.claimId == cid else true | none => true) &&
  (match f.isAnalyzed with | some b => d.isAnalyzed == b | none => true) &&
  (match f.uploadDateFrom with | some t => decide (t ≤ d.uploadDate) | none => true) &&
  (match f.uploadDateTo with | some t => decide (d.uploadDate ≤ t) | none => true)

/-- Return value of filterDocuments. -/
structure DocumentFilterResponse where
  documents : List Document
  total : Nat
deriving DecidableEq, Repr

/-- Model of filterDocuments. -/
def filterDocuments (s : Store) (userId : String) (f : DocumentFilters)
    (page pageSize : Nat) : DocumentFilterResponse :=
  let w := documentFilterWhere userId f
  let skip := (page - 1) * pageSize
  { documents := findManyBy s.documents w (fun d => d.updatedAt) skip pageSize
    total := countBy s.documents w }

/-- The claim search predicate with the inferred-status disjunct removed:
user scope AND the OR of the two text-match conditions only. -/
def claimTextWhere (userId : String) (terms : List String) (c : Claim) : Bool :=
  c.userId == userId &&
    (createSearchCondition c.claimNumber terms ||
     createSearchCondition c.description terms)

/-- The document search predicate with the inferred-type disjunct removed. -/
def documentTextWhere (userId : String) (terms : List String) (d : Document) : Bool :=
  d.userId == userId &&
    (createSearchCondition d.fileName terms ||
     createSearchCondition d.description terms)

/-! Concrete fixtures, used to instantiate the theorems below on explicit
inputs. -/

/-- Fixture policy of user u1. -/
def samplePolicy : Policy :=
  { id := "policy-1", userId := "u1", policyNumber := "HP-2023-001"
    provider := "Insurance Co", description := "home coverage"
    insuranceType := "HOME", isActive := true, coverageAmount := 200000
    startDate := 0, endDate := 1000, updatedAt := 10 }

/-- Fixture claim of user u1 (description mentions damage). -/
def sampleClaim : Claim :=
  { id := "claim-1", userId := "u1", policyId := "policy-1"
    claimNumber := "CL-777", description := "water damage in kitchen"
    status := "APPROVED", incidentDate := 5, damageAmount := 1000, updatedAt := 20 }

/-- Fixture document of user u1 (description mentions damage). -/
def sampleDocument : Document :=
  { id := "document-1", userId := "u1", policyId := "policy-1", claimId := "claim-1"
    fileName := "roof.jpg", description := "photo of damage"
    documentType := "PHOTO", fileSize := 2048, isAnalyzed := false
    uploadDate := 7, updatedAt := 30 }

/-- Fixture policy of another user u2. -/
def otherPolicy : Policy :=
  { id := "policy-9", userId := "u2", policyNumber := "ZZ-100"
    provider := "Damage Masters", description := "damage damage damage"
    insuranceType := "AUTO", isActive := false, coverageAmount := 1
    startDate := 0, endDate := 1, updatedAt := 99 }

/-- Fixture document of another user u2. -/
def otherDocument : Document :=
  { id := "document-9", userId := "u2", policyId := "", claimId := ""
    fileName := "damage.pdf", description := "water damage"
    documentType := "OTHER", fileSize := 10, isAnalyzed := true
    uploadDate := 1, updatedAt := 98 }

/-- Fixture store holding only records of user u1. -/
def sampleStore : Store :=
  { policies := [samplePolicy], claims := [sampleClaim], documents := [sampleDocument] }

/-- Fixture store that also holds records of user u2, interleaved. -/
def sampleStoreB : Store :=
  { policies := [otherPolicy, samplePolicy], claims := [sampleClaim]
    documents := [sampleDocument, otherDocument] }

/-- Fixture policy filter with five supplied constraints (the scenario of
the spec). -/
def sampleFilters : PolicyFilters :=
  { insuranceType := some ["HOME"], provider := some ["Insurance Co"]
    isActive := some true, minAmount := some 100000, maxAmount := some 500000 }

/-- Fixture policy filter whose insuranceType list is supplied but empty. -/
def emptyListFilters : PolicyFilters :=
  { insuranceType := some [] }

/-- Fixture search options requesting two kinds. -/
def twoKindOptions : SearchOptions :=
  { query := "damage", userId := "u1"
    types := [SearchResultType.policy, SearchResultType.claim] }

/-! Theorems. -/

/-- Helper: the total returned by globalSearch is the sum of the per-kind
counts, for a non-empty term list. -/
theorem globalSearch_total_formula (s : Store) (o : SearchOptions)
    (h : (tokenize o.query).isEmpty = false) :
    (globalSearch s o).total =
      (if o.types.contains SearchResultType.policy then
        countBy s.policies (policySearchWhere o.userId (tokenize o.query)) else 0) +
      (if o.types.contains SearchResultType.claim then
        countBy s.claims (claimSearchWhere o.userId (tokenize o.query)) else 0) +
      (if o.types.contains SearchResultType.document then
        countBy s.documents (documentSearchWhere o.userId (tokenize o.query)) else 0) := by
  simp [globalSearch, h]

/-- C2: for every globalSearch call whose free-text query tokenizes to no
terms (empty or whitespace-only input), the function returns empty results
with total 0, and issues no store query at all (the schedule of store
calls is empty). -/
theorem globalSearch_empty_query (s : Store) (o : SearchOptions)
    (h : tokenize o.query = []) :
    globalSearch s o = { results := [], total := 0 } ∧ globalSearchSchedule o = [] := by
  refine ⟨?_, ?_⟩ <;> simp [globalSearch, globalSearchSchedule, h]

/-- Witness for C2 on a whitespace-only query. -/
theorem globalSearch_empty_query_witness :
    globalSearch sampleStore { query := "   ", userId := "u1" } = { results := [], total := 0 } ∧
      globalSearchSchedule { query := "   ", userId := "u1" } = [] :=
  globalSearch_empty_query sampleStore { query := "   ", userId := "u1" } (by decide)

/-- C3: for every globalSearch call with at least one term, the returned
total is the sum, over the requested kinds, of the independently computed
count of that kind under its full search predicate; the right-hand side
mentions neither page nor limit, so the total is independent of how many
records were fetched and of the final slice. -/
theorem globalSearch_total_eq_sum_of_counts (s : Store) (o : SearchOptions)
    (h : tokenize o.query ≠ []) :
    (globalSearch s o).total =
      (if o.types.contains SearchResultType.policy then
        countBy s.policies (policySearchWhere o.userId (tokenize o.query)) else 0) +
      (if o.types.contains SearchResultType.claim then
        countBy s.claims (claimSearchWhere o.userId (tokenize o.query)) else 0) +
      (if o.types.contains SearchResultType.document then
        countBy s.documents (documentSearchWhere o.userId (tokenize o.query)) else 0) := by
  have he : (tokenize o.query).isEmpty = false := by
    cases hq : tokenize o.query with
    | nil => exact absurd hq h
    | cons a l => rfl
  exact globalSearch_total_formula s o he

/-- Witness for C3. -/
theorem globalSearch_total_eq_sum_of_counts_witness :
    (globalSearch sampleStore { query := "damage", userId := "u1" }).total =
      (if [SearchResultType.policy, SearchResultType.claim, SearchResultType.document].contains SearchResultType.policy then
        countBy sampleStore.policies (policySearchWhere "u1" (tokenize "damage")) else 0) +
      (if [SearchResultType.policy, SearchResultType.claim, SearchResultType.document].contains SearchResultType.claim then
        countBy sampleStore.claims (claimSearchWhere "u1" (tokenize "damage")) else 0) +
      (if [SearchResultType.policy, SearchResultType.claim, SearchResultType.document].contains SearchResultType.document then
        countBy sampleStore.documents (documentSearchWhere "u1" (tokenize "damage")) else 0) :=
  globalSearch_total_eq_sum_of_counts sampleStore { query := "damage", userId := "u1" } (by decide)

/-- Helper: createSearchCondition is the any-term-matches test, in both of
its branches. -/
theorem createSearchCondition_eq_any (v : String) (terms : List String) :
    createSearchCondition v terms = terms.any (fun t => containsCI v t) := by
  match terms with
  | [] => rfl
  | [t] => simp [createSearchCondition]
  | t1 :: t2 :: ts => rfl

/-- Helper: the status disjunct holds exactly when some term is a status
keyword whose inferred status equals the status of the record. -/
theorem claimStatusCondition_iff (terms : List String) (c : Claim) :
    claimStatusCondition terms c = true ↔
      ∃ t ∈ terms, isClaimStatusKeyword t = true ∧ inferClaimStatus t = c.status := by
  unfold claimStatusCondition
  by_cases h : terms.any isClaimStatusKeyword = true
  · rw [if_pos h]
    simp only [List.contains, List.elem_eq_mem, decide_eq_true_iff, List.mem_map,
      List.mem_filter]
    constructor
    · rintro ⟨t, ⟨ht, hk⟩, hi⟩
      exact ⟨t, ht, hk, hi⟩
    · rintro ⟨t, ht, hk, hi⟩
      exact ⟨t, ⟨ht, hk⟩, hi⟩
  · rw [if_neg h]
    simp only [List.any_eq_true, not_exists, not_and] at h
    push_neg at h
    simp only [Bool.false_eq_true, false_iff, not_exists, not_and]
    intro t ht hk
    exact absurd hk (by simpa using h t ht)

/-- Helper: the documentType disjunct in the same form. -/
theorem documentTypeCondition_iff (terms : List String) (d : Document) :
    documentTypeCondition terms d = true ↔
      ∃ t ∈ terms, isDocumentTypeKeyword t = true ∧ inferDocumentType t = d.documentType := by
  unfold documentTypeCondition
  by_cases h : terms.any isDocumentTypeKeyword = true
  · rw [if_pos h]
    simp only [List.contains, List.elem_eq_mem, decide_eq_true_iff, List.mem_map,
      List.mem_filter]
    constructor
    · rintro ⟨t, ⟨ht, hk⟩, hi⟩
      exact ⟨t, ht, hk, hi⟩
    · rintro ⟨t, ht, hk, hi⟩
      exact ⟨t, ⟨ht, hk⟩, hi⟩
  · rw [if_neg h]
    simp only [List.any_eq_true, not_exists, not_and] at h
    push_neg at h
    simp only [Bool.false_eq_true, false_iff, not_exists, not_and]
    intro t ht hk
    exact absurd hk (by simpa using h t ht)

/-- C6: matching semantics.  A record of a requested kind satisfies the
search predicate iff it belongs to the user and either some term appears
case-insensitively as a substring of some designated text field of that
kind, or the inferred enum condition of that kind holds; in particular OR
is taken across terms and across fields, never AND. -/
theorem searchWhere_match_semantics (u : String) (terms : List String) :
    (∀ p : Policy, policySearchWhere u terms p = true ↔
      (p.userId = u ∧ ∃ t ∈ terms,
        containsCI p.policyNumber t = true ∨ containsCI p.provider t = true ∨
          containsCI p.description t = true)) ∧
    (∀ c : Claim, claimSearchWhere u terms c = true ↔
      (c.userId = u ∧
        ((∃ t ∈ terms, containsCI c.claimNumber t = true ∨ containsCI c.description t = true) ∨
          ∃ t ∈ terms, isClaimStatusKeyword t = true ∧ inferClaimStatus t = c.status))) ∧
    (∀ d : Document, documentSearchWhere u terms d = true ↔
      (d.userId = u ∧
        ((∃ t ∈ terms, containsCI d.fileName t = true ∨ containsCI d.description t = true) ∨
          ∃ t ∈ terms, isDocumentTypeKeyword t = true ∧ inferDocumentType t = d.documentType))) := by
  refine ⟨?_, ?_, ?_⟩
  · intro p
    simp only [policySearchWhere, Bool.and_eq_true, Bool.or_eq_true, beq_iff_eq,
      createSearchCondition_eq_any, List.any_eq_true]
    constructor
    · rintro ⟨hu, (⟨t, ht, hc⟩ | ⟨t, ht, hc⟩) | ⟨t, ht, hc⟩⟩
      exacts [⟨hu, t, ht, Or.inl hc⟩, ⟨hu, t, ht, Or.inr (Or.inl hc)⟩,
        ⟨hu, t, ht, Or.inr (Or.inr hc)⟩]
    · rintro ⟨hu, t, ht, hc | hc | hc⟩
      exacts [⟨hu, Or.inl (Or.inl ⟨t, ht, hc⟩)⟩, ⟨hu, Or.inl (Or.inr ⟨t, ht, hc⟩)⟩,
        ⟨hu, Or.inr ⟨t, ht, hc⟩⟩]
  · intro c
    simp only [claimSearchWhere, Bool.and_eq_true, Bool.or_eq_true, beq_iff_eq,
      createSearchCondition_eq_any, List.any_eq_true, claimStatusCondition_iff]
    constructor
    · rintro ⟨hu, (⟨t, ht, hc⟩ | ⟨t, ht, hc⟩) | hs⟩
      exacts [⟨hu, Or.inl ⟨t, ht, Or.inl hc⟩⟩, ⟨hu, Or.inl ⟨t, ht, Or.inr hc⟩⟩, ⟨hu, Or.inr hs⟩]
    · rintro ⟨hu, ⟨t, ht, hc | hc⟩ | hs⟩
      exacts [⟨hu, Or.inl (Or.inl ⟨t, ht, hc⟩)⟩, ⟨hu, Or.inl (Or.inr ⟨t, ht, hc⟩)⟩, ⟨hu, Or.inr hs⟩]
  · intro d
    simp only [documentSearchWhere, Bool.and_eq_true, Bool.or_eq_true, beq_iff_eq,
      createSearchCondition_eq_any, List.any_eq_true, documentTypeCondition_iff]
    constructor
    · rintro ⟨hu, (⟨t, ht, hc⟩ | ⟨t, ht, hc⟩) | hs⟩
      exacts [⟨hu, Or.inl ⟨t, ht, Or.inl hc⟩⟩, ⟨hu, Or.inl ⟨t, ht, Or.inr hc⟩⟩, ⟨hu, Or.inr hs⟩]
    · rintro ⟨hu, ⟨t, ht, hc | hc⟩ | hs⟩
      exacts [⟨hu, Or.inl (Or.inl ⟨t, ht, hc⟩)⟩, ⟨hu, Or.inl (Or.inr ⟨t, ht, hc⟩)⟩, ⟨hu, Or.inr hs⟩]

/-- Witness for C6: a record where one term matches only one field and the
other term matches only another field is still a match (OR across terms
and fields). -/
theorem searchWhere_match_semantics_witness :
    policySearchWhere "u1" ["HP-2023", "Insurance"] samplePolicy = true ∧
      containsCI samplePolicy.policyNumber "Insurance" = false ∧
      containsCI samplePolicy.provider "HP-2023" = false :=
  ⟨((searchWhere_match_semantics "u1" ["HP-2023", "Insurance"]).1 samplePolicy).mpr
    (by refine ⟨by decide, "HP-2023", by decide, Or.inl (by decide)⟩),
   by decide, by decide⟩

/-- C7: keyword inference only widens.  When some term matches the
claim-status (resp. document-category) keyword set, the full predicate
equals the text-only predicate OR-ed with the inferred enum condition;
a record matching without the inferred condition always matches with it;
and the match set of the full predicate contains the match set of the
text-only predicate. -/
theorem keyword_inference_widens (u : String) (terms : List String) :
    (∀ c : Claim, terms.any isClaimStatusKeyword = true →
      claimSearchWhere u terms c =
        (claimTextWhere u terms c ||
          (c.userId == u && ((terms.filter isClaimStatusKeyword).map inferClaimStatus).contains c.status))) ∧
    (∀ c : Claim, claimTextWhere u terms c = true → claimSearchWhere u terms c = true) ∧
    (∀ rows : List Claim,
      List.Sublist (rows.filter (claimTextWhere u terms)) (rows.filter (claimSearchWhere u terms))) ∧
    (∀ d : Document, terms.any isDocumentTypeKeyword = true →
      documentSearchWhere u terms d =
        (documentTextWhere u terms d ||
          (d.userId == u && ((terms.filter isDocumentTypeKeyword).map inferDocumentType).contains d.documentType))) ∧
    (∀ d : Document, documentTextWhere u terms d = true → documentSearchWhere u terms d = true) ∧
    (∀ rows : List Document,
      List.Sublist (rows.filter (documentTextWhere u terms)) (rows.filter (documentSearchWhere u terms))) := by
  have himpc : ∀ c : Claim, claimTextWhere u terms c = true → claimSearchWhere u terms c = true := by
    intro c h
    simp only [claimTextWhere, Bool.and_eq_true, Bool.or_eq_true] at h
    simp only [claimSearchWhere, Bool.and_eq_true, Bool.or_eq_true]
    exact ⟨h.1, Or.inl h.2⟩
  have himpd : ∀ d : Document, documentTextWhere u terms d = true → documentSearchWhere u terms d = true := by
    intro d h
    simp only [documentTextWhere, Bool.and_eq_true, Bool.or_eq_true] at h
    simp only [documentSearchWhere, Bool.and_eq_true, Bool.or_eq_true]
    exact ⟨h.1, Or.inl h.2⟩
  refine ⟨?_, himpc, ?_, ?_, himpd, ?_⟩
  · intro c h
    simp [claimSearchWhere, claimTextWhere, claimStatusCondition, h,
      Bool.and_or_distrib_left, Bool.or_assoc]
  · intro rows
    exact List.monotone_filter_right rows himpc
  · intro d h
    simp [documentSearchWhere, documentTextWhere, documentTypeCondition, h,
      Bool.and_or_distrib_left, Bool.or_assoc]
  · intro rows
    exact List.monotone_filter_right rows himpd

/-- Witness for C7: with the single term "damage", the sample claim,
which matches by text alone, also matches the full predicate. -/
theorem keyword_inference_widens_witness :
    claimSearchWhere "u1" ["damage"] sampleClaim = true :=
  (keyword_inference_widens "u1" ["damage"]).2.1 sampleClaim (by decide)

/-- C8: a query whose free text is exactly "approved", against kinds
including claim, matches every claim of the requesting user whose status
is APPROVED: the claim satisfies the claim search predicate, belongs to
the match set, and makes the returned total positive, even though
"approved" occurs in none of its text fields. -/
theorem approved_query_counts_approved_claims (s : Store) (o : SearchOptions) (c : Claim)
    (hq : o.query = "approved") (hty : o.types.contains SearchResultType.claim = true)
    (hcu : c.userId = o.userId) (hcs : c.status = "APPROVED") :
    claimSearchWhere o.userId (tokenize o.query) c = true ∧
      (c ∈ s.claims →
        c ∈ s.claims.filter (claimSearchWhere o.userId (tokenize o.query)) ∧
          1 ≤ (globalSearch s o).total) := by
  have ht : tokenize "approved" = ["approved"] := by decide
  have e1 : (["approved"] : List String).any isClaimStatusKeyword = true := by decide
  have e2 : ((["approved"] : List String).filter isClaimStatusKeyword).map inferClaimStatus
      = ["APPROVED"] := by decide
  have hw : claimSearchWhere o.userId (tokenize o.query) c = true := by
    rw [hq, ht]
    simp [claimSearchWhere, claimStatusCondition, e1, e2, hcu, hcs]
  refine ⟨hw, fun hc => ?_⟩
  have hmem : c ∈ s.claims.filter (claimSearchWhere o.userId (tokenize o.query)) :=
    List.mem_filter.mpr ⟨hc, hw⟩
  refine ⟨hmem, ?_⟩
  have hcount : 1 ≤ countBy s.claims (claimSearchWhere o.userId (tokenize o.query)) := by
    have := List.length_pos.mpr (List.ne_nil_of_mem hmem)
    exact this
  have hne : (tokenize o.query).isEmpty = false := by rw [hq, ht]; rfl
  rw [globalSearch_total_formula s o hne, if_pos hty]
  omega

/-- Witness for C8 on the sample store: the fixture claim has status
APPROVED and no text field containing "approved". -/
theorem approved_query_counts_approved_claims_witness :
    claimSearchWhere "u1" (tokenize "approved") sampleClaim = true ∧
      (sampleClaim ∈ sampleStore.claims →
        sampleClaim ∈ sampleStore.claims.filter (claimSearchWhere "u1" (tokenize "approved")) ∧
          1 ≤ (globalSearch sampleStore { query := "approved", userId := "u1", types := [SearchResultType.claim] }).total) :=
  approved_query_counts_approved_claims sampleStore
    { query := "approved", userId := "u1", types := [SearchResultType.claim] } sampleClaim
    (by decide) (by decide) (by decide) (by decide)

/-- Helper: every record returned by findManyBy is a stored record that
satisfies the where predicate. -/
theorem mem_of_mem_findManyBy {α : Type} {rows : List α} {w : α → Bool} {key : α → Int}
    {skip take : Nat} {x : α} (h : x ∈ findManyBy rows w key skip take) :
    x ∈ rows ∧ w x = true := by
  unfold findManyBy at h
  have h1 : x ∈ ((rows.filter w).insertionSort (keyDesc key)).drop skip :=
    List.mem_of_mem_take h
  have h2 : x ∈ (rows.filter w).insertionSort (keyDesc key) :=
    List.mem_of_mem_drop h1
  have h3 : x ∈ rows.filter w := (List.perm_insertionSort _ _).mem_iff.mp h2
  exact ⟨List.mem_of_mem_filter h3, List.of_mem_filter h3⟩

/-- C9 counterexample: with a supplied but empty insuranceType list the
query imposes no list-membership constraint, so a returned policy need not
satisfy "insuranceType ∈ supplied list" (which is unsatisfiable for the
empty list); the claim, read over all filterPolicies calls, fails at this
input. -/
theorem filterPolicies_empty_list_refutes_claim :
    ¬ (∀ p ∈ (filterPolicies sampleStore "u1" emptyListFilters 1 10).policies,
        p.insuranceType ∈ ([] : List String)) := by
  intro h
  exact absurd (h samplePolicy (by decide)) (by decide)

/-- C9 (amended): the where predicate of filterPolicies is exactly the
conjunction of the user scope with the supplied constraints, where a
list-membership field imposes its constraint only when the supplied list
is non-empty (an empty list, like an absent field, imposes none); hence
every returned policy satisfies every such constraint, and re-running the
identical filter over unchanged data yields an identical result set. -/
theorem filterPolicies_round_trip (s : Store) (u : String) (f : PolicyFilters)
    (page pageSize : Nat) :
    (∀ p : Policy, policyFilterWhere u f p = true ↔
      (p.userId = u ∧
        (∀ l, f.insuranceType = some l → l ≠ [] → p.insuranceType ∈ l) ∧
        (∀ l, f.provider = some l → l ≠ [] → p.provider ∈ l) ∧
        (∀ b, f.isActive = some b → p.isActive = b) ∧
        (∀ m, f.minAmount = some m → m ≤ p.coverageAmount) ∧
        (∀ m, f.maxAmount = some m → p.coverageAmount ≤ m) ∧
        (∀ t, f.startAfter = some t → t ≤ p.startDate) ∧
        (∀ t, f.endBefore = some t → p.endDate ≤ t))) ∧
    (∀ p ∈ (filterPolicies s u f page pageSize).policies,
      p ∈ s.policies ∧ policyFilterWhere u f p = true) ∧
    filterPolicies s u f page pageSize = filterPolicies s u f page pageSize := by
  have hin : ∀ (v : String) (o : Option (List String)),
      inListFilter v o = true ↔ ∀ l, o = some l → l ≠ [] → v ∈ l := by
    intro v o
    cases o with
    | none => simp [inListFilter]
    | some l =>
      cases l with
      | nil => simp [inListFilter]
      | cons a as =>
        simp [inListFilter, List.contains, List.elem_eq_mem]
  refine ⟨?_, ?_, rfl⟩
  · intro p
    simp only [policyFilterWhere, Bool.and_eq_true, beq_iff_eq, and_assoc]
    refine and_congr Iff.rfl (and_congr (hin _ _) (and_congr (hin _ _)
      (and_congr ?_ (and_congr ?_ (and_congr ?_ (and_congr ?_ ?_))))))
    · cases f.isActive <;> simp
    · cases f.minAmount <;> simp
    · cases f.maxAmount <;> simp
    · cases f.startAfter <;> simp
    · cases f.endBefore <;> simp
  · intro p hp
    have := mem_of_mem_findManyBy (x := p) (by simpa [filterPolicies] using hp)
    exact this

/-- Witness for C9 on the five-constraint fixture filter: the sample
policy is returned and satisfies the where predicate. -/
theorem filterPolicies_round_trip_witness :
    samplePolicy ∈ sampleStore.policies ∧ policyFilterWhere "u1" sampleFilters samplePolicy = true :=
  (filterPolicies_round_trip sampleStore "u1" sampleFilters 1 10).2.1 samplePolicy (by decide)

/-- C10 counterexample: at a concrete two-kind search the schedule is two
sequential batches (the policy pair awaited before the claim pair is
started), not one fan-out batch of all four per-kind calls; so the claim
that all per-kind calls of a multi-kind search are issued concurrently
fails on the code. -/
theorem globalSearchSchedule_not_single_batch :
    globalSearchSchedule twoKindOptions =
      [[StoreCall.policyFindMany, StoreCall.policyCount],
       [StoreCall.claimFindMany, StoreCall.claimCount]] ∧
      (globalSearchSchedule twoKindOptions).length ≠ 1 := by
  constructor
  · decide
  · decide

/-- C10 (amended): only the two store calls of one kind (its list fetch
and its count fetch) are issued concurrently and awaited together; the
kinds themselves are processed sequentially as one batch per requested
kind, in policy, claim, document order. -/
theorem globalSearchSchedule_per_kind_batches (o : SearchOptions)
    (h : tokenize o.query ≠ []) :
    (∀ b ∈ globalSearchSchedule o,
      b = [StoreCall.policyFindMany, StoreCall.policyCount] ∨
      b = [StoreCall.claimFindMany, StoreCall.claimCount] ∨
      b = [StoreCall.documentFindMany, StoreCall.documentCount]) ∧
    ([StoreCall.policyFindMany, StoreCall.policyCount] ∈ globalSearchSchedule o ↔
      o.types.contains SearchResultType.policy = true) ∧
    ([StoreCall.claimFindMany, StoreCall.claimCount] ∈ globalSearchSchedule o ↔
      o.types.contains SearchResultType.claim = true) ∧
    ([StoreCall.documentFindMany, StoreCall.documentCount] ∈ globalSearchSchedule o ↔
      o.types.contains SearchResultType.document = true) ∧
    (globalSearchSchedule o).length =
      ((if o.types.contains SearchResultType.policy then 1 else 0) +
       (if o.types.contains SearchResultType.claim then 1 else 0) +
       (if o.types.contains SearchResultType.document then 1 else 0)) := by
  have he : (tokenize o.query).isEmpty = false := by
    cases hq : tokenize o.query with
    | nil => exact absurd hq h
    | cons a l => rfl
  by_cases hp : SearchResultType.policy ∈ o.types <;>
    by_cases hc : SearchResultType.claim ∈ o.types <;>
      by_cases hd : SearchResultType.document ∈ o.types <;>
        simp [globalSearchSchedule, he, hp, hc, hd]

/-- Witness for C10 (amended) at the two-kind fixture options. -/
theorem globalSearchSchedule_per_kind_batches_witness :
    (globalSearchSchedule twoKindOptions).length =
      ((if twoKindOptions.types.contains SearchResultType.policy then 1 else 0) +
       (if twoKindOptions.types.contains SearchResultType.claim then 1 else 0) +
       (if twoKindOptions.types.contains SearchResultType.document then 1 else 0)) :=
  (globalSearchSchedule_per_kind_batches twoKindOptions (by decide)).2.2.2.2

/-- Helper: a filter under a user-scoped predicate (one that forces the
user id) is determined by the user-scoped part of the list. -/
theorem filter_congr_userScoped {α : Type} (w : α → Bool) (uid : α → String) (u : String)
    (hw : ∀ r, w r = true → uid r = u) {l1 l2 : List α}
    (h : l1.filter (fun r => uid r == u) = l2.filter (fun r => uid r == u)) :
    l1.filter w = l2.filter w := by
  have key : ∀ l : List α, l.filter w = (l.filter (fun r => uid r == u)).filter w := by
    intro l
    rw [List.filter_filter]
    apply List.filter_congr
    intro a _
    cases hwa : w a with
    | false => simp
    | true => simp [beq_iff_eq.mpr (hw a hwa), hwa]
  rw [key l1, key l2, h]

/-- Helper: the policy search predicate forces the user id. -/
theorem policySearchWhere_scoped (u : String) (terms : List String) :
    ∀ p : Policy, policySearchWhere u terms p = true → p.userId = u := by
  intro p hp
  simp only [policySearchWhere, Bool.and_eq_true, beq_iff_eq] at hp
  exact hp.1

/-- Helper: the claim search predicate forces the user id. -/
theorem claimSearchWhere_scoped (u : String) (terms : List String) :
    ∀ c : Claim, claimSearchWhere u terms c = true → c.userId = u := by
  intro c hc
  simp only [claimSearchWhere, Bool.and_eq_true, beq_iff_eq] at hc
  exact hc.1

/-- Helper: the document search predicate forces the user id. -/
theorem documentSearchWhere_scoped (u : String) (terms : List String) :
    ∀ d : Document, documentSearchWhere u terms d = true → d.userId = u := by
  intro d hd
  simp only [documentSearchWhere, Bool.and_eq_true, beq_iff_eq] at hd
  exact hd.1

/-- Helper: the policy filter predicate forces the user id. -/
theorem policyFilterWhere_scoped (u : String) (f : PolicyFilters) :
    ∀ p : Policy, policyFilterWhere u f p = true → p.userId = u := by
  intro p hp
  simp only [policyFilterWhere, Bool.and_eq_true, beq_iff_eq, and_assoc] at hp
  exact hp.1

/-- Helper: the claim filter predicate forces the user id. -/
theorem claimFilterWhere_scoped (u : String) (f : ClaimFilters) :
    ∀ c : Claim, claimFilterWhere u f c = true → c.userId = u := by
  intro c hc
  simp only [claimFilterWhere, Bool.and_eq_true, beq_iff_eq, and_assoc] at hc
  exact hc.1

/-- Helper: the document filter predicate forces the user id. -/
theorem documentFilterWhere_scoped (u : String) (f : DocumentFilters) :
    ∀ d : Document, documentFilterWhere u f d = true → d.userId = u := by
  intro d hd
  simp only [documentFilterWhere, Bool.and_eq_true, beq_iff_eq, and_assoc] at hd
  exact hd.1

/-- C1: every store query issued by globalSearch, filterPolicies,
filterClaims and filterDocuments is scoped to the requesting user, so the
responses depend only on the records of that user: two stores agreeing on
the records of user u (but differing arbitrarily in records of other
users) give identical responses for every request of user u. -/
theorem user_scoping_noninterference (s1 s2 : Store) (u : String)
    (hp : s1.policies.filter (fun p => p.userId == u) = s2.policies.filter (fun p => p.userId == u))
    (hc : s1.claims.filter (fun c => c.userId == u) = s2.claims.filter (fun c => c.userId == u))
    (hd : s1.documents.filter (fun d => d.userId == u) = s2.documents.filter (fun d => d.userId == u)) :
    (∀ o : SearchOptions, o.userId = u → globalSearch s1 o = globalSearch s2 o) ∧
    (∀ (f : PolicyFilters) (page pageSize : Nat),
      filterPolicies s1 u f page pageSize = filterPolicies s2 u f page pageSize) ∧
    (∀ (f : ClaimFilters) (page pageSize : Nat),
      filterClaims s1 u f page pageSize = filterClaims s2 u f page pageSize) ∧
    (∀ (f : DocumentFilters) (page pageSize : Nat),
      filterDocuments s1 u f page pageSize = filterDocuments s2 u f page pageSize) := by
  refine ⟨?_, ?_, ?_, ?_⟩
  · intro o ho
    have ep := filter_congr_userScoped (policySearchWhere o.userId (tokenize o.query))
      (fun p => p.userId) u (by rw [ho]; exact policySearchWhere_scoped u _) hp
    have ec := filter_congr_userScoped (claimSearchWhere o.userId (tokenize o.query))
      (fun c => c.userId) u (by rw [ho]; exact claimSearchWhere_scoped u _) hc
    have ed := filter_congr_userScoped (documentSearchWhere o.userId (tokenize o.query))
      (fun d => d.userId) u (by rw [ho]; exact documentSearchWhere_scoped u _) hd
    simp only [globalSearch, policyCandidates, claimCandidates, documentCandidates,
      findManyBy, countBy, ep, ec, ed]
  · intro f page pageSize
    have e := filter_congr_userScoped (policyFilterWhere u f)
      (fun p => p.userId) u (policyFilterWhere_scoped u f) hp
    simp only [filterPolicies, findManyBy, countBy, e]
  · intro f page pageSize
    have e := filter_congr_userScoped (claimFilterWhere u f)
      (fun c => c.userId) u (claimFilterWhere_scoped u f) hc
    simp only [filterClaims, findManyBy, countBy, e]
  · intro f page pageSize
    have e := filter_congr_userScoped (documentFilterWhere u f)
      (fun d => d.userId) u (documentFilterWhere_scoped u f) hd
    simp only [filterDocuments, findManyBy, countBy, e]

/-- Witness for C1: adding records of user u2 to the store leaves the
response of a u1 search unchanged. -/
theorem user_scoping_noninterference_witness :
    globalSearch sampleStore { query := "damage", userId := "u1" } =
      globalSearch sampleStoreB { query := "damage", userId := "u1" } :=
  (user_scoping_noninterference sampleStore sampleStoreB "u1"
    (by decide) (by decide) (by decide)).1 { query := "damage", userId := "u1" } rfl

/-- Helper: findManyBy returns at most take records. -/
theorem findManyBy_length_le {α : Type} (rows : List α) (w : α → Bool) (key : α → Int)
    (skip take : Nat) : (findManyBy rows w key skip take).length ≤ take := by
  unfold findManyBy
  rw [List.length_take]
  exact Nat.min_le_left _ _

/-- Helper: findManyBy output is sorted by the key, descending. -/
theorem findManyBy_pairwise {α : Type} (rows : List α) (w : α → Bool) (key : α → Int)
    (skip take : Nat) : (findManyBy rows w key skip take).Pairwise (keyDesc key) := by
  have hs : ((rows.filter w).insertionSort (keyDesc key)).Pairwise (keyDesc key) :=
    List.sorted_insertionSort (keyDesc key) (rows.filter w)
  exact List.Pairwise.sublist
    ((List.take_sublist _ _).trans (List.drop_sublist _ _)) hs

/-- Helper: candidates mapped out of findManyBy are sorted by date,
descending, when the mapper carries the sort key into the date field. -/
theorem pairwise_byDateDesc_map {α : Type} (rows : List α) (w : α → Bool) (key : α → Int)
    (skip take : Nat) (f : α → SearchResult) (hf : ∀ a, (f a).date = key a) :
    ((findManyBy rows w key skip take).map f).Pairwise byDateDesc := by
  rw [List.pairwise_map]
  refine (findManyBy_pairwise rows w key skip take).imp ?_
  intro a b h
  show (f b).date ≤ (f a).date
  rw [hf, hf]
  exact h

/-- Helper: records in two consecutive findManyBy windows (skip a and
skip a+n, take n each) have distinct ids when the stored ids are
distinct. -/
theorem findManyBy_pages_id_disjoint {α : Type} (rows : List α) (w : α → Bool) (key : α → Int)
    (idf : α → String) (hnd : (rows.map idf).Nodup) (a n : Nat) :
    ∀ x1 ∈ findManyBy rows w key a n, ∀ x2 ∈ findManyBy rows w key (a + n) n,
      idf x1 ≠ idf x2 := by
  intro x1 h1 x2 h2 heq
  have hLnd : ((((rows.filter w).insertionSort (keyDesc key))).map idf).Nodup := by
    have hfil : ((rows.filter w).map idf).Nodup :=
      List.Nodup.sublist ((List.filter_sublist _).map idf) hnd
    exact (((List.perm_insertionSort (keyDesc key) (rows.filter w))).map idf).symm.nodup hfil
  have m1 : idf x1 ∈ ((((rows.filter w).insertionSort (keyDesc key)).map idf).drop a).take n := by
    rw [← List.map_drop, ← List.map_take]
    exact List.mem_map_of_mem idf h1
  have m2 : idf x2 ∈ (((rows.filter w).insertionSort (keyDesc key)).map idf).drop (a + n) := by
    rw [← List.map_drop]
    exact List.mem_map_of_mem idf (List.mem_of_mem_take h2)
  rw [heq] at m1
  have hnd2 : ((((rows.filter w).insertionSort (keyDesc key)).map idf).drop a).Nodup :=
    List.Nodup.sublist (List.drop_sublist _ _) hLnd
  rw [← List.take_append_drop n ((((rows.filter w).insertionSort (keyDesc key)).map idf).drop a)]
    at hnd2
  have hdisj := List.disjoint_of_nodup_append hnd2
  apply hdisj m1
  rw [List.drop_drop]
  exact m2

/-- Helper: the id-disjointness of consecutive windows transfers along the
result mappers, which preserve the id. -/
theorem map_pages_id_disjoint {α : Type} (rows : List α) (w : α → Bool) (key : α → Int)
    (idf : α → String) (f : α → SearchResult) (hfid : ∀ a, (f a).id = idf a)
    (hnd : (rows.map idf).Nodup) (a n : Nat) :
    ∀ r1 ∈ (findManyBy rows w key a n).map f, ∀ r2 ∈ (findManyBy rows w key (a + n) n).map f,
      r1.id ≠ r2.id := by
  intro r1 hr1 r2 hr2
  obtain ⟨x1, hx1, rfl⟩ := List.mem_map.mp hr1
  obtain ⟨x2, hx2, rfl⟩ := List.mem_map.mp hr2
  rw [hfid, hfid]
  exact findManyBy_pages_id_disjoint rows w key idf hnd a n x1 hx1 x2 hx2

/-- Helper: with exactly one requested kind, the results of globalSearch
are the store fetch of that kind with the caller skip and take, with no
further slicing (the final re-sort is the identity on the already sorted
fetch). -/
theorem globalSearch_single_kind_results (s : Store) (o : SearchOptions) (k : SearchResultType)
    (hk : o.types = [k]) :
    (globalSearch s o).results =
      (match k with
       | SearchResultType.policy =>
         policyCandidates s o.userId (tokenize o.query) ((o.page - 1) * o.limit) o.limit
       | SearchResultType.claim =>
         claimCandidates s o.userId (tokenize o.query) ((o.page - 1) * o.limit) o.limit
       | SearchResultType.document =>
         documentCandidates s o.userId (tokenize o.query) ((o.page - 1) * o.limit) o.limit) := by
  by_cases hq : (tokenize o.query).isEmpty
  · have ht : tokenize o.query = [] := by
      cases hql : tokenize o.query with
      | nil => rfl
      | cons a l => rw [hql] at hq; exact absurd hq (by simp)
    have hfp : s.policies.filter (policySearchWhere o.userId []) = [] := by
      rw [List.filter_eq_nil_iff]
      intro p _
      simp [policySearchWhere, createSearchCondition]
    have hfc : s.claims.filter (claimSearchWhere o.userId []) = [] := by
      rw [List.filter_eq_nil_iff]
      intro c _
      simp [claimSearchWhere, createSearchCondition, claimStatusCondition]
    have hfd : s.documents.filter (documentSearchWhere o.userId []) = [] := by
      rw [List.filter_eq_nil_iff]
      intro d _
      simp [documentSearchWhere, createSearchCondition, documentTypeCondition]
    cases k <;>
      simp [globalSearch, hq, ht, policyCandidates, claimCandidates, documentCandidates,
        findManyBy, hfp, hfc, hfd]
  · cases k with
    | policy =>
      have hsort := List.Sorted.insertionSort_eq
        (pairwise_byDateDesc_map s.policies (policySearchWhere o.userId (tokenize o.query))
          (fun p => p.updatedAt) ((o.page - 1) * o.limit) o.limit policyToResult (fun a => rfl))
      simp [globalSearch, hq, hk, policyCandidates, hsort]
    | claim =>
      have hsort := List.Sorted.insertionSort_eq
        (pairwise_byDateDesc_map s.claims (claimSearchWhere o.userId (tokenize o.query))
          (fun c => c.updatedAt) ((o.page - 1) * o.limit) o.limit claimToResult (fun a => rfl))
      simp [globalSearch, hq, hk, claimCandidates, hsort]
    | document =>
      have hsort := List.Sorted.insertionSort_eq
        (pairwise_byDateDesc_map s.documents (documentSearchWhere o.userId (tokenize o.query))
          (fun d => d.updatedAt) ((o.page - 1) * o.limit) o.limit documentToResult (fun a => rfl))
      simp [globalSearch, hq, hk, documentCandidates, hsort]

/-- C5: with exactly one requested kind, skip = (page-1)*limit and
take = limit are applied in the store query itself and the fetch is
returned with no further slicing; hence at most limit items are returned,
ordered by last-modified descending, and two consecutive pages share no
record id (when stored ids are distinct). -/
theorem globalSearch_single_kind_pagination (s : Store) (o : SearchOptions) (k : SearchResultType)
    (hk : o.types = [k]) (hpage : 1 ≤ o.page) :
    ((globalSearch s o).results =
      (match k with
       | SearchResultType.policy =>
         policyCandidates s o.userId (tokenize o.query) ((o.page - 1) * o.limit) o.limit
       | SearchResultType.claim =>
         claimCandidates s o.userId (tokenize o.query) ((o.page - 1) * o.limit) o.limit
       | SearchResultType.document =>
         documentCandidates s o.userId (tokenize o.query) ((o.page - 1) * o.limit) o.limit)) ∧
    (globalSearch s o).results.length ≤ o.limit ∧
    (globalSearch s o).results.Pairwise byDateDesc ∧
    ((s.policies.map Policy.id).Nodup → (s.claims.map Claim.id).Nodup →
      (s.documents.map Document.id).Nodup →
      ∀ r1 ∈ (globalSearch s o).results,
        ∀ r2 ∈ (globalSearch s { o with page := o.page + 1 }).results, r1.id ≠ r2.id) := by
  have hres := globalSearch_single_kind_results s o k hk
  have hres2 := globalSearch_single_kind_results s { o with page := o.page + 1 } k hk
  have harith : o.page * o.limit = (o.page - 1) * o.limit + o.limit := by
    cases hpg : o.page with
    | zero => exact absurd hpage (by omega)
    | succ m => simp [Nat.succ_sub_one, Nat.succ_mul]
  refine ⟨hres, ?_, ?_, ?_⟩
  · rw [hres]
    cases k with
    | policy =>
      simpa [policyCandidates] using
        findManyBy_length_le s.policies (policySearchWhere o.userId (tokenize o.query))
          (fun p => p.updatedAt) ((o.page - 1) * o.limit) o.limit
    | claim =>
      simpa [claimCandidates] using
        findManyBy_length_le s.claims (claimSearchWhere o.userId (tokenize o.query))
          (fun c => c.updatedAt) ((o.page - 1) * o.limit) o.limit
    | document =>
      simpa [documentCandidates] using
        findManyBy_length_le s.documents (documentSearchWhere o.userId (tokenize o.query))
          (fun d => d.updatedAt) ((o.page - 1) * o.limit) o.limit
  · rw [hres]
    cases k with
    | policy =>
      exact pairwise_byDateDesc_map s.policies (policySearchWhere o.userId (tokenize o.query))
        (fun p => p.updatedAt) ((o.page - 1) * o.limit) o.limit policyToResult (fun a => rfl)
    | claim =>
      exact pairwise_byDateDesc_map s.claims (claimSearchWhere o.userId (tokenize o.query))
        (fun c => c.updatedAt) ((o.page - 1) * o.limit) o.limit claimToResult (fun a => rfl)
    | document =>
      exact pairwise_byDateDesc_map s.documents (documentSearchWhere o.userId (tokenize o.query))
        (fun d => d.updatedAt) ((o.page - 1) * o.limit) o.limit documentToResult (fun a => rfl)
  · intro hnp hnc hnd r1 h1 r2 h2
    rw [hres] at h1
    rw [hres2] at h2
    simp only [Nat.add_sub_cancel] at h2
    rw [harith] at h2
    cases k with
    | policy =>
      exact map_pages_id_disjoint s.policies (policySearchWhere o.userId (tokenize o.query))
        (fun p => p.updatedAt) Policy.id policyToResult (fun a => rfl) hnp
        ((o.page - 1) * o.limit) o.limit r1 h1 r2 h2
    | claim =>
      exact map_pages_id_disjoint s.claims (claimSearchWhere o.userId (tokenize o.query))
        (fun c => c.updatedAt) Claim.id claimToResult (fun a => rfl) hnc
        ((o.page - 1) * o.limit) o.limit r1 h1 r2 h2
    | document =>
      exact map_pages_id_disjoint s.documents (documentSearchWhere o.userId (tokenize o.query))
        (fun d => d.updatedAt) Document.id documentToResult (fun a => rfl) hnd
        ((o.page - 1) * o.limit) o.limit r1 h1 r2 h2

/-- Witness for C5: a single-kind claim search on the sample store. -/
theorem globalSearch_single_kind_pagination_witness :
    (globalSearch sampleStore { query := "damage", userId := "u1", types := [SearchResultType.claim] }).results =
      claimCandidates sampleStore "u1" (tokenize "damage") ((1 - 1) * 20) 20 :=
  (globalSearch_single_kind_pagination sampleStore
    { query := "damage", userId := "u1", types := [SearchResultType.claim] }
    SearchResultType.claim rfl (by decide)).1

/-- Helper: stability of the final sort, characterized on ties: sorting by
date descending does not reorder elements of equal date. -/
theorem insertionSort_filter_date (L : List SearchResult) (d : Int) :
    (L.insertionSort byDateDesc).filter (fun r => r.date == d) =
      L.filter (fun r => r.date == d) := by
  have hpw : (L.filter (fun r => r.date == d)).Pairwise byDateDesc := by
    apply List.pairwise_of_forall_mem_list
    intro a ha b hb
    have hda : a.date = d := by simpa using List.of_mem_filter ha
    have hdb : b.date = d := by simpa using List.of_mem_filter hb
    show b.date ≤ a.date
    rw [hda, hdb]
  have hsub : List.Sublist ((L.filter (fun r => r.date == d)).filter (fun r => r.date == d))
      ((L.insertionSort byDateDesc).filter (fun r => r.date == d)) :=
    (List.sublist_insertionSort hpw (List.filter_sublist L)).filter _
  have hid : (L.filter (fun r => r.date == d)).filter (fun r => r.date == d)
      = L.filter (fun r => r.date == d) := by
    rw [List.filter_filter]
    simp
  rw [hid] at hsub
  have hperm : List.Perm ((L.insertionSort byDateDesc).filter (fun r => r.date == d))
      (L.filter (fun r => r.date == d)) :=
    (List.perm_insertionSort byDateDesc L).filter _
  exact (hsub.eq_of_length hperm.length_eq.symm).symm

/-- C4: multi-kind merge-then-slice.  With more than one requested kind,
each requested kind fetches at most limit candidates with store skip 0;
the candidates are concatenated in policy, claim, document order
(mergeCandidates), stably sorted by date descending, and the returned
results are exactly the slice [skip, skip+limit) of this merged capped
list; stability means ties keep the fetch order. -/
theorem globalSearch_multi_kind_merge (s : Store) (o : SearchOptions)
    (hk : 1 < o.types.length) (hq : tokenize o.query ≠ []) :
    ((globalSearch s o).results =
      (((mergeCandidates s o).insertionSort byDateDesc).drop ((o.page - 1) * o.limit)).take o.limit) ∧
    (policyCandidates s o.userId (tokenize o.query) 0 o.limit).length ≤ o.limit ∧
    (claimCandidates s o.userId (tokenize o.query) 0 o.limit).length ≤ o.limit ∧
    (documentCandidates s o.userId (tokenize o.query) 0 o.limit).length ≤ o.limit ∧
    ((mergeCandidates s o).insertionSort byDateDesc).Pairwise byDateDesc ∧
    (∀ d : Int, ((mergeCandidates s o).insertionSort byDateDesc).filter (fun r => r.date == d) =
      (mergeCandidates s o).filter (fun r => r.date == d)) := by
  have he : (tokenize o.query).isEmpty = false := by
    cases hql : tokenize o.query with
    | nil => exact absurd hql hq
    | cons a l => rfl
  have hne1 : (o.types.length == 1) = false := by
    simp only [beq_eq_false_iff_ne, ne_eq]
    omega
  refine ⟨?_, ?_, ?_, ?_, ?_, ?_⟩
  · simp [globalSearch, mergeCandidates, he, hne1, hk]
  · simpa [policyCandidates] using
      findManyBy_length_le s.policies (policySearchWhere o.userId (tokenize o.query))
        (fun p => p.updatedAt) 0 o.limit
  · simpa [claimCandidates] using
      findManyBy_length_le s.claims (claimSearchWhere o.userId (tokenize o.query))
        (fun c => c.updatedAt) 0 o.limit
  · simpa [documentCandidates] using
      findManyBy_length_le s.documents (documentSearchWhere o.userId (tokenize o.query))
        (fun d => d.updatedAt) 0 o.limit
  · exact List.sorted_insertionSort byDateDesc (mergeCandidates s o)
  · intro d
    exact insertionSort_filter_date (mergeCandidates s o) d

/-- Witness for C4: a three-kind search on the sample store, page 1. -/
theorem globalSearch_multi_kind_merge_witness :
    (globalSearch sampleStore { query := "damage", userId := "u1" }).results =
      (((mergeCandidates sampleStore { query := "damage", userId := "u1" }).insertionSort
        byDateDesc).drop ((1 - 1) * 20)).take 20 :=
  (globalSearch_multi_kind_merge sampleStore { query := "damage", userId := "u1" }
    (by decide) (by decide)).1

end ClaimGuardian
